import Mathlib

/-!
Verification of the SQL ↔ Shopify/WooCommerce sync service.

The Python sources are shallowly embedded: Python dicts become association
lists with last-write-wins insertion, exceptions become `Except`, and the
network / database side effects of one sync run become an explicit
environment record consulted by the translated control flow.
-/

namespace ShopSync

/-- Scalar value carried in a record field (`Dict[str, Any]` payload).
The sync path never inspects values, so two scalar shapes suffice. -/
inductive Val where
  | s (v : String)
  | n (v : Int)
  deriving DecidableEq, Repr

/-- An in-memory record: ordered mapping field-name → value, as produced by
a platform fetch or a table read. -/
abbrev Rec := List (String × Val)

/-- Lookup of a key in a Python-dict-like association list. -/
def dlookup (d : List (String × Val)) (k : String) : Option Val :=
  match d with
  | [] => none
  | (k1, v1) :: rest => if k1 = k then some v1 else dlookup rest k

/-- Key set of a dict. -/
def dkeys (d : List (String × Val)) : List String := d.map Prod.fst

/-- Python dict assignment `d[k] = v`: replaces an existing binding of `k`,
otherwise appends the new binding at the end. -/
def dinsert (d : List (String × Val)) (k : String) (v : Val) : List (String × Val) :=
  match d with
  | [] => [(k, v)]
  | (k1, v1) :: rest =>
      if k1 = k then (k1, v) :: rest else (k1, v1) :: dinsert rest k v

/-- A transformation rule attached to a source field.  The source code never
interprets the rule payload (the `pass` branch), so the payload is opaque. -/
abbrev Rule := String

/-- SyncEngine._transform_data: walk the field mapping in order; a source
field present in the data contributes its value under the target field name;
transformation rules are looked up but applied as pass-through (`pass` in the
source); absent source fields contribute nothing. -/
def transform_data (data : Rec) (field_mapping : List (String × String))
    (transformation_rules : Option (List (String × Rule))) : Rec :=
  field_mapping.foldl
    (fun transformed st =>
      match dlookup data st.1 with
      | some value =>
          -- the rule branch in the source binds the rule and does nothing
          dinsert transformed st.2 value
      | none => transformed)
    []

/-! ## Platform client (ShopifyClient) and the tenacity retry decorator -/

/-- Failure modes of one HTTP attempt. -/
inductive HttpFailure where
  | status (code : Nat)
  | timeout
  | connReset
  deriving DecidableEq, Repr

/-- tenacity wait_exponential(multiplier, min, max), modelled from the
library contract: the wait before the retry following failed attempt `n`
(1-based) is `multiplier * 2 ^ n` clamped into `[mn, mx]`. -/
def wait_exponential (multiplier mn mx n : Nat) : Nat :=
  max mn (min (multiplier * 2 ^ n) mx)

/-- tenacity @retry(stop=stop_after_attempt(3)): `f i` is the outcome of
attempt `i`; every raised exception triggers a retry until three attempts
have been made.  Returns (number of attempts made, final outcome). -/
def retry_stop3 {α : Type} (f : Nat → Except HttpFailure α) :
    Nat × Except HttpFailure α :=
  match f 0 with
  | .ok a => (1, .ok a)
  | .error _ =>
    match f 1 with
    | .ok a => (2, .ok a)
    | .error _ => (3, f 2)

/-- ShopifyClient.test_connection, with its @retry decorator: the probe is
one GET of shop.json; success returns True, any failure is re-raised (and
hence retried by the decorator). -/
def test_connection (probe : Nat → Except HttpFailure Unit) :
    Nat × Except HttpFailure Bool :=
  retry_stop3 (fun i => (probe i).map (fun _ => true))

/-- Remote state of one Shopify shop, per resource collection.  The list
endpoint behaviour (at most the requested page of records per call) is
modelled from the spec, the platform API being external to the repo. -/
structure ShopifyShop where
  products : List Rec
  orders : List Rec
  customers : List Rec

/-- One paginated list call: the client sends limit = min(limit, 250) and
receives at most that many records from the head of the collection. -/
def shopify_page (available : List Rec) (limit : Nat) : List Rec :=
  available.take (min limit 250)

/-- ShopifyClient.get_products (the sync path always uses the default
since_id = None, which no caller overrides). -/
def get_products (shop : ShopifyShop) (limit : Nat) : List Rec :=
  shopify_page shop.products limit

/-- ShopifyClient.get_data: dispatch a resource name to its fetch method;
an unsupported name raises ValueError before any I/O. -/
def get_data (shop : ShopifyShop) (resource_type : String) (limit : Nat) :
    Except String (List Rec) :=
  if resource_type = "products" then .ok (get_products shop limit)
  else if resource_type = "orders" then .ok (shopify_page shop.orders limit)
  else if resource_type = "customers" then .ok (shopify_page shop.customers limit)
  else .error ("Unsupported resource type: " ++ resource_type)

/-! ## Sync engine data model -/

/-- models.SyncDirection. -/
inductive SyncDirection where
  | to_platform
  | from_platform
  | bidirectional
  deriving DecidableEq, Repr

/-- models.FieldMapping, restricted to the columns the sync engine and the
scheduler read. -/
structure FieldMapping where
  id : Nat
  name : String
  is_active : Bool
  sync_direction : SyncDirection
  platform_fields : List (String × String)
  db_fields : List (String × String)
  transformation_rules : Option (List (String × Rule))
  db_table : String
  platform_resource : String
  sync_interval_minutes : Nat
  last_sync : Option Nat
  deriving DecidableEq, Repr

/-- models.SyncLog, the SyncRun row. Timestamps are abstract instants. -/
structure SyncLog where
  field_mapping_id : Nat
  sync_direction : SyncDirection
  status : String
  records_processed : Nat
  records_successful : Nat
  records_failed : Nat
  error_message : Option String
  error_details : Option (List String)
  completed_at : Option Nat
  deriving DecidableEq, Repr

/-- A value in a Python statistics dict: a count, a list of error strings,
or (for bidirectional runs) a nested per-pass dict. -/
inductive SVal where
  | num (n : Nat)
  | strs (l : List String)
  | nested (d : List (String × SVal))

/-- Lookup in a statistics dict (`stats.get(k)`). -/
def sget (d : List (String × SVal)) (k : String) : Option SVal :=
  match d with
  | [] => none
  | (k1, v1) :: rest => if k1 = k then some v1 else sget rest k

/-- Numeric lookup in a statistics dict. -/
def sgetNat (d : List (String × SVal)) (k : String) : Option Nat :=
  match sget d k with
  | some (.num n) => some n
  | _ => none

/-- Outcomes of the external calls one sync run can make; consulted by the
translated control flow of SyncEngine. -/
structure SyncEnv where
  platform_client : Except String Unit
  db_client : Except String Unit
  platform_fetch : String → Except String (List Rec)
  db_fetch : String → List String → Except String (List Rec)
  insert_data : String → Rec → Except String Unit
  create_product : Rec → Except String Unit
  now : Nat

/-- Mutable per-run tallies of a direction helper. -/
structure Tally where
  records_processed : Nat
  records_successful : Nat
  records_failed : Nat
  errors : List String
  deriving DecidableEq, Repr

/-- The stats dict a direction helper returns, in its insertion order. -/
def tallyStats (t : Tally) : List (String × SVal) :=
  [("records_processed", .num t.records_processed),
   ("records_successful", .num t.records_successful),
   ("records_failed", .num t.records_failed),
   ("errors", .strs t.errors)]

/-- What a direction helper did: its returned stats, and whether it reached
the db_client.close() call at the end of its try block.  The source never
closes the platform client inside the engine (only the client destructor
does, at garbage collection), so no platform-close event can be produced. -/
structure RunOutput where
  stats : List (String × SVal)
  db_client_closed : Bool
  platform_client_closed : Bool

/-- Stats returned when the outer try of a helper catches exception `e`
before the record loop: the initial zero tallies plus one appended
"Sync failed" error string, and no close call reached. -/
def abortOutput (e : String) : RunOutput :=
  { stats := tallyStats
      { records_processed := 0, records_successful := 0, records_failed := 0,
        errors := ["Sync failed: " ++ e] },
    db_client_closed := false,
    platform_client_closed := false }

/-- One iteration of the record loop of sync_from_platform_to_database:
count the record, transform it, insert into the db table; an insert
exception is caught, tallied and stringified, and the loop continues. -/
def platformRecordStep (env : SyncEnv) (fm : FieldMapping) (t : Tally)
    (record : Rec) : Tally :=
  let t1 := { t with records_processed := t.records_processed + 1 }
  let transformed :=
    transform_data record fm.platform_fields fm.transformation_rules
  match env.insert_data fm.db_table transformed with
  | .ok _ => { t1 with records_successful := t1.records_successful + 1 }
  | .error e =>
      { t1 with
        records_failed := t1.records_failed + 1,
        errors := t1.errors ++ ["Failed to sync record: " ++ e] }

/-- SyncEngine.sync_from_platform_to_database: construct both clients,
fetch one batch of the configured platform resource, process each record,
then close the database client.  A failure before the loop is caught by the
outer except, which appends "Sync failed: ..." and returns the stats. -/
def sync_from_platform_to_database (env : SyncEnv) (fm : FieldMapping) :
    RunOutput :=
  match env.platform_client with
  | .error e => abortOutput e
  | .ok _ =>
    match env.db_client with
    | .error e => abortOutput e
    | .ok _ =>
      match env.platform_fetch fm.platform_resource with
      | .error e => abortOutput e
      | .ok platform_data =>
        let t := platform_data.foldl (platformRecordStep env fm)
          { records_processed := 0, records_successful := 0,
            records_failed := 0, errors := [] }
        { stats := tallyStats t,
          db_client_closed := true,
          platform_client_closed := false }

/-- One iteration of the record loop of sync_from_database_to_platform:
count, transform with the db-field mapping, and create on the platform —
but only the "products" resource has a write implemented; any other
resource skips the write and still counts the record as successful. -/
def dbRecordStep (env : SyncEnv) (fm : FieldMapping) (t : Tally)
    (record : Rec) : Tally :=
  let t1 := { t with records_processed := t.records_processed + 1 }
  let transformed :=
    transform_data record fm.db_fields fm.transformation_rules
  if fm.platform_resource = "products" then
    match env.create_product transformed with
    | .ok _ => { t1 with records_successful := t1.records_successful + 1 }
    | .error e =>
        { t1 with
          records_failed := t1.records_failed + 1,
          errors := t1.errors ++ ["Failed to sync record: " ++ e] }
  else
    { t1 with records_successful := t1.records_successful + 1 }

/-- SyncEngine.sync_from_database_to_platform, same shape as the
platform-to-database direction with source and sink swapped. -/
def sync_from_database_to_platform (env : SyncEnv) (fm : FieldMapping) :
    RunOutput :=
  match env.platform_client with
  | .error e => abortOutput e
  | .ok _ =>
    match env.db_client with
    | .error e => abortOutput e
    | .ok _ =>
      match env.db_fetch fm.db_table (fm.db_fields.map Prod.fst) with
      | .error e => abortOutput e
      | .ok db_data =>
        let t := db_data.foldl (dbRecordStep env fm)
          { records_processed := 0, records_successful := 0,
            records_failed := 0, errors := [] }
        { stats := tallyStats t,
          db_client_closed := true,
          platform_client_closed := false }

/-- SyncEngine.sync_bidirectional: run the two passes in order and build
the combined stats dict.  Its keys are exactly the five below — there is no
top-level "errors" key; the per-pass error lists sit inside the two nested
dicts. -/
def sync_bidirectional (env : SyncEnv) (fm : FieldMapping) :
    List (String × SVal) :=
  let p := (sync_from_platform_to_database env fm).stats
  let d := (sync_from_database_to_platform env fm).stats
  [("from_platform", .nested p),
   ("from_database", .nested d),
   ("total_records_processed",
      .num ((sgetNat p "records_processed").getD 0 +
            (sgetNat d "records_processed").getD 0)),
   ("total_records_successful",
      .num ((sgetNat p "records_successful").getD 0 +
            (sgetNat d "records_successful").getD 0)),
   ("total_records_failed",
      .num ((sgetNat p "records_failed").getD 0 +
            (sgetNat d "records_failed").getD 0))]

/-- The two ValueError raises of execute_sync that happen before a SyncLog
row is created. -/
inductive SyncError where
  | not_found (field_mapping_id : Nat)
  | inactive_mapping (name : String)
  deriving DecidableEq, Repr

/-- Result of execute_sync: the raised error or returned SyncLog, the final
contents of the sync-log store, and the final mapping table. -/
structure ExecResult where
  result : Except SyncError SyncLog
  sync_logs : List SyncLog
  field_mappings : List FieldMapping

/-- SyncEngine.execute_sync.  The inner try of the source can only raise on
an invalid sync direction; every value of the three-member direction enum
dispatches to a helper that catches its own exceptions and returns stats,
so in this embedding the failed-sealing branch is unreachable and the log
is always sealed "completed".  Counts are read with the Python fallback
chain stats.get("total_records_processed", stats.get("records_processed",
0)); error_details is set only when stats.get("errors") is truthy. -/
def execute_sync (env : SyncEnv) (field_mappings : List FieldMapping)
    (sync_logs : List SyncLog) (field_mapping_id : Nat) : ExecResult :=
  match field_mappings.find? (fun fm => fm.id = field_mapping_id) with
  | none =>
      { result := .error (.not_found field_mapping_id),
        sync_logs := sync_logs, field_mappings := field_mappings }
  | some fm =>
    if fm.is_active = false then
      { result := .error (.inactive_mapping fm.name),
        sync_logs := sync_logs, field_mappings := field_mappings }
    else
      let stats :=
        match fm.sync_direction with
        | .from_platform => (sync_from_platform_to_database env fm).stats
        | .to_platform => (sync_from_database_to_platform env fm).stats
        | .bidirectional => sync_bidirectional env fm
      let sealed : SyncLog :=
        { field_mapping_id := fm.id,
          sync_direction := fm.sync_direction,
          status := "completed",
          records_processed :=
            (sgetNat stats "total_records_processed").getD
              ((sgetNat stats "records_processed").getD 0),
          records_successful :=
            (sgetNat stats "total_records_successful").getD
              ((sgetNat stats "records_successful").getD 0),
          records_failed :=
            (sgetNat stats "total_records_failed").getD
              ((sgetNat stats "records_failed").getD 0),
          error_message := none,
          error_details :=
            match sget stats "errors" with
            | some (.strs (e :: es)) => some (e :: es)
            | _ => none,
          completed_at := some env.now }
      { result := .ok sealed,
        sync_logs := sync_logs ++ [sealed],
        field_mappings :=
          field_mappings.map (fun m =>
            if m.id = fm.id then { m with last_sync := some env.now } else m) }

/-! ## Scheduler (SyncScheduler) -/

/-- One apscheduler job as the scheduler registers it. -/
structure Job where
  id : String
  name : String
  interval_minutes : Nat
  deriving DecidableEq, Repr

/-- SyncScheduler.remove_sync_job: remove the job with the given id; the
JobLookupError raised for an absent id is caught and logged, so removal is
idempotent. -/
def remove_sync_job (jobs : List Job) (job_id : String) : List Job :=
  jobs.filter (fun j => j.id ≠ job_id)

/-- SyncScheduler.add_sync_job: return None leaving the store untouched if
the mapping is inactive; otherwise remove any existing job for the
mapping's identity and register a fresh interval job under that id. -/
def add_sync_job (jobs : List Job) (fm : FieldMapping) :
    Option String × List Job :=
  if fm.is_active = false then (none, jobs)
  else
    let job_id := "sync_mapping_" ++ toString fm.id
    let jobs1 := remove_sync_job jobs job_id
    (some job_id,
     jobs1 ++ [{ id := job_id, name := "Sync: " ++ fm.name,
                 interval_minutes := fm.sync_interval_minutes }])

/-! ## Credential resolver (EncryptionManager) -/

/-- The Fernet cipher of the cryptography library, abstracted at the repo
boundary: a total byte-level encryptor and a partial decryptor. -/
structure FernetCipher where
  fencrypt : String → String
  fdecrypt : String → Option String

/-- The urlsafe base64 codec of the standard library, abstracted likewise. -/
structure Base64Codec where
  b64encode : String → String
  b64decode : String → Option String

namespace EncryptionManager

/-- EncryptionManager.encrypt: empty input short-circuits to "" before the
cipher is touched; otherwise Fernet-encrypt then base64-encode. -/
def encrypt (c : FernetCipher) (b : Base64Codec) (data : String) : String :=
  if data = "" then "" else b.b64encode (c.fencrypt data)

/-- EncryptionManager.decrypt: empty input short-circuits to "" before the
cipher is touched; otherwise base64-decode then Fernet-decrypt, and any
failure of either step is caught and re-raised as ValueError (the source
appends the caught exception's text to the message). -/
def decrypt (c : FernetCipher) (b : Base64Codec) (encrypted_data : String) :
    Except String String :=
  if encrypted_data = "" then .ok ""
  else
    match b.b64decode encrypted_data with
    | none => .error "Decryption failed"
    | some decoded =>
      match c.fdecrypt decoded with
      | none => .error "Decryption failed"
      | some plain => .ok plain

end EncryptionManager

/-! ## Concrete fixtures used to instantiate the theorems -/

/-- A one-field platform record. -/
def recT (s : String) : Rec := [("title", Val.s s)]

/-- An active mapping syncing Shopify products into a table, direction
platform → database. -/
def fmP : FieldMapping :=
  { id := 1, name := "products-sync", is_active := true,
    sync_direction := .from_platform,
    platform_fields := [("title", "name")],
    db_fields := [("name", "title")],
    transformation_rules := none,
    db_table := "products_t", platform_resource := "products",
    sync_interval_minutes := 30, last_sync := none }

/-- The same mapping configured bidirectional. -/
def fmB : FieldMapping :=
  { fmP with
    id := 2, name := "products-bidi",
    sync_direction := .bidirectional }

/-- An inactive mapping. -/
def fmOff : FieldMapping :=
  { fmP with
    id := 3, name := "products-off", is_active := false }

/-- Environment in which every external call succeeds and the platform
fetch returns the given batch. -/
def envOk (batch : List Rec) : SyncEnv :=
  { platform_client := .ok (), db_client := .ok (),
    platform_fetch := fun _ => .ok batch,
    db_fetch := fun _ _ => .ok [],
    insert_data := fun _ _ => .ok (),
    create_product := fun _ => .ok (),
    now := 100 }

/-- Environment whose database client cannot be constructed. -/
def envDbFail : SyncEnv :=
  { envOk [] with db_client := .error "db connection refused" }

/-- Environment whose batch fetch raises. -/
def envFetchFail : SyncEnv :=
  { envOk [] with platform_fetch := fun _ => .error "fetch timed out" }

/-- Environment for the five-record partial-failure scenario: the insert
of the transformed third record raises, the other four succeed. -/
def envFive : SyncEnv :=
  { envOk [recT "t1", recT "t2", recT "t3", recT "t4", recT "t5"] with
    insert_data := fun _ d =>
      if d = [("name", Val.s "t3")] then .error "write refused" else .ok () }

/-- Environment in which every insert fails, used to show bidirectional
runs drop their per-record errors. -/
def envInsFail : SyncEnv :=
  { envOk [recT "t1"] with insert_data := fun _ _ => .error "disk full" }

/-- A shop holding 300 products, more than one 250-record page. -/
def shopBig : ShopifyShop :=
  { products := List.replicate 300 (recT "p"), orders := [], customers := [] }

/-- A shop holding 3 products. -/
def shopSmall : ShopifyShop :=
  { products := [recT "a", recT "b", recT "c"], orders := [], customers := [] }

/-- Environment whose platform fetch is wired to a concrete shop through
ShopifyClient.get_data with the engine's call (default limit 250, no
since_id, no paging loop). -/
def envShop (shop : ShopifyShop) : SyncEnv :=
  { envOk [] with platform_fetch := fun r => get_data shop r 250 }

/-- Identity stand-in for the Fernet cipher, satisfying its round-trip
contract. -/
def idCipher : FernetCipher := { fencrypt := fun s => s, fdecrypt := some }

/-- Identity stand-in for the base64 codec, satisfying its round-trip
contract. -/
def idCodec : Base64Codec := { b64encode := fun s => s, b64decode := some }

/-! ## Dict lemmas -/

theorem dlookup_isSome_iff (d : List (String × Val)) (k : String) :
    (dlookup d k).isSome ↔ k ∈ dkeys d := by
  induction d with
  | nil => simp [dlookup, dkeys]
  | cons hd tl ih =>
    by_cases h : hd.1 = k
    · simp [dlookup, dkeys, h]
    · simp [dlookup, dkeys, h, ih, Ne.symm h]

theorem mem_dkeys_dinsert (d : List (String × Val)) (k t : String) (v : Val) :
    t ∈ dkeys (dinsert d k v) ↔ t = k ∨ t ∈ dkeys d := by
  induction d with
  | nil => simp [dinsert, dkeys]
  | cons hd tl ih =>
    obtain ⟨k1, v1⟩ := hd
    simp only [dinsert]
    by_cases h : k1 = k
    · rw [if_pos h]
      subst h
      simp only [dkeys, List.map_cons, List.mem_cons]
      tauto
    · rw [if_neg h]
      simp only [dkeys, List.map_cons, List.mem_cons]
      simp only [dkeys] at ih
      rw [ih]
      tauto

theorem dlookup_dinsert_self (d : List (String × Val)) (k : String) (v : Val) :
    dlookup (dinsert d k v) k = some v := by
  induction d with
  | nil => simp [dinsert, dlookup]
  | cons hd tl ih =>
    obtain ⟨k1, v1⟩ := hd
    simp only [dinsert]
    by_cases h : k1 = k
    · rw [if_pos h]
      simp [dlookup, h]
    · rw [if_neg h]
      simp [dlookup, h, ih]

theorem dlookup_dinsert_ne (d : List (String × Val)) (k k2 : String) (v : Val)
    (hne : k ≠ k2) :
    dlookup (dinsert d k v) k2 = dlookup d k2 := by
  induction d with
  | nil => simp [dinsert, dlookup, hne]
  | cons hd tl ih =>
    obtain ⟨k1, v1⟩ := hd
    simp only [dinsert]
    by_cases h : k1 = k
    · rw [if_pos h]
      subst h
      simp [dlookup, hne]
    · rw [if_neg h]
      simp [dlookup, ih]

theorem transform_preserves_target (data : Rec) (s t : String) (v : Val)
    (hv : dlookup data s = some v) :
    ∀ (M : List (String × String)) (acc : Rec),
      (∀ p ∈ M, p.2 = t → p.1 = s) →
      dlookup acc t = some v →
      dlookup (M.foldl
        (fun transformed st =>
          match dlookup data st.1 with
          | some value => dinsert transformed st.2 value
          | none => transformed) acc) t = some v := by
  intro M
  induction M with
  | nil =>
    intro acc _ hacc
    simpa using hacc
  | cons hd tl ih =>
    intro acc huniq hacc
    obtain ⟨s0, t0⟩ := hd
    rw [List.foldl_cons]
    cases hdl : dlookup data s0 with
    | none =>
      simp only [hdl]
      exact ih acc (fun p hp hpt => huniq p (List.mem_cons.mpr (Or.inr hp)) hpt) hacc
    | some u =>
      simp only [hdl]
      apply ih _ (fun p hp hpt => huniq p (List.mem_cons.mpr (Or.inr hp)) hpt)
      by_cases ht : t0 = t
      · have hs0 : s0 = s :=
          huniq (s0, t0) (List.mem_cons.mpr (Or.inl rfl)) ht
        subst ht
        subst hs0
        rw [dlookup_dinsert_self]
        rw [hv] at hdl
        exact hdl.symm
      · rw [dlookup_dinsert_ne _ _ _ _ ht]
        exact hacc

theorem transform_value_aux (data : Rec) (s t : String) (v : Val)
    (hv : dlookup data s = some v) :
    ∀ (M : List (String × String)) (acc : Rec), (s, t) ∈ M →
      (∀ p ∈ M, p.2 = t → p.1 = s) →
      dlookup (M.foldl
        (fun transformed st =>
          match dlookup data st.1 with
          | some value => dinsert transformed st.2 value
          | none => transformed) acc) t = some v := by
  intro M
  induction M with
  | nil =>
    intro acc hmem
    exact absurd hmem (List.not_mem_nil _)
  | cons hd tl ih =>
    intro acc hmem huniq
    obtain ⟨s0, t0⟩ := hd
    rw [List.foldl_cons]
    rcases List.mem_cons.mp hmem with heq | htl
    · injection heq with hs ht
      subst hs
      subst ht
      simp only [hv]
      exact transform_preserves_target data s t v hv tl _
        (fun p hp hpt => huniq p (List.mem_cons.mpr (Or.inr hp)) hpt)
        (dlookup_dinsert_self acc t v)
    · cases hdl : dlookup data s0 with
      | none =>
        simp only [hdl]
        exact ih _ htl (fun p hp hpt => huniq p (List.mem_cons.mpr (Or.inr hp)) hpt)
      | some u =>
        simp only [hdl]
        exact ih _ htl (fun p hp hpt => huniq p (List.mem_cons.mpr (Or.inr hp)) hpt)

theorem transform_keys_aux (data : Rec) (M : List (String × String)) :
    ∀ (acc : Rec) (t : String),
      t ∈ dkeys (M.foldl
        (fun transformed st =>
          match dlookup data st.1 with
          | some value => dinsert transformed st.2 value
          | none => transformed) acc)
      ↔ t ∈ dkeys acc ∨ ∃ s, (s, t) ∈ M ∧ s ∈ dkeys data := by
  induction M with
  | nil => simp
  | cons hd tl ih =>
    obtain ⟨s0, t0⟩ := hd
    intro acc t
    rw [List.foldl_cons]
    cases hdl : dlookup data s0 with
    | some v =>
      have hmem : s0 ∈ dkeys data := by
        rw [← dlookup_isSome_iff, hdl]; rfl
      simp only [hdl]
      rw [ih, mem_dkeys_dinsert]
      constructor
      · rintro ((h1 | h1) | ⟨s, hs, hsd⟩)
        · exact Or.inr ⟨s0, List.mem_cons.mpr (Or.inl (by rw [h1])), hmem⟩
        · exact Or.inl h1
        · exact Or.inr ⟨s, List.mem_cons.mpr (Or.inr hs), hsd⟩
      · rintro (h1 | ⟨s, hs, hsd⟩)
        · exact Or.inl (Or.inr h1)
        · rcases List.mem_cons.mp hs with h2 | h2
          · exact Or.inl (Or.inl (congrArg Prod.snd h2))
          · exact Or.inr ⟨s, h2, hsd⟩
    | none =>
      have hmem : s0 ∉ dkeys data := by
        rw [← dlookup_isSome_iff, hdl]; simp
      simp only [hdl]
      rw [ih]
      constructor
      · rintro (h1 | ⟨s, hs, hsd⟩)
        · exact Or.inl h1
        · exact Or.inr ⟨s, List.mem_cons.mpr (Or.inr hs), hsd⟩
      · rintro (h1 | ⟨s, hs, hsd⟩)
        · exact Or.inl h1
        · rcases List.mem_cons.mp hs with h2 | h2
          · have hse : s = s0 := congrArg Prod.fst h2
            exact absurd (hse ▸ hsd) hmem
          · exact Or.inr ⟨s, h2, hsd⟩

/-- C3: the field transform is total and deterministic, its output carries
exactly the target fields whose source field is present in the input
record (absent fields are omitted, no null-fill), the transformation
rules — looked up but never interpreted by the source — have no effect on
the result, so unknown rule kinds behave as pass-through, and a mapped
value reaches its target field unchanged. -/
theorem transform_data_spec (data : Rec) (M : List (String × String))
    (rules : Option (List (String × Rule))) :
    (∀ t, t ∈ dkeys (transform_data data M rules) ↔
        ∃ s, (s, t) ∈ M ∧ s ∈ dkeys data)
    ∧ transform_data data M rules = transform_data data M none
    ∧ (∀ s t v, (s, t) ∈ M → (∀ p ∈ M, p.2 = t → p.1 = s) →
        dlookup data s = some v →
        dlookup (transform_data data M rules) t = some v) := by
  refine ⟨fun t => ?_, rfl, fun s t v hmem huniq hv => ?_⟩
  · unfold transform_data
    rw [transform_keys_aux data M [] t]
    simp [dkeys]
  · unfold transform_data
    exact transform_value_aux data s t v hv M [] hmem huniq

/-- C3 witness: the one-pair mapping title→name carries the record's title
value to the name field, and name is a key of the output. -/
theorem transform_data_spec_witness :
    ("name" ∈ dkeys (transform_data (recT "t1") [("title", "name")] none) ↔
      ∃ s, (s, "name") ∈ [("title", "name")] ∧ s ∈ dkeys (recT "t1"))
    ∧ dlookup (transform_data (recT "t1") [("title", "name")] none) "name" =
        some (Val.s "t1") := by
  refine ⟨(transform_data_spec (recT "t1") [("title", "name")] none).1 "name", ?_⟩
  exact (transform_data_spec (recT "t1") [("title", "name")] none).2.2
    "title" "name" (Val.s "t1") (by simp)
    (fun p hp hpt => by
      rcases List.mem_cons.mp hp with h | h
      · exact congrArg Prod.fst h
      · exact absurd h (List.not_mem_nil p))
    rfl

/-! ## Stats-dict lookup lemmas -/

theorem sgetNat_tally_processed (t : Tally) :
    sgetNat (tallyStats t) "records_processed" = some t.records_processed := by
  simp [tallyStats, sgetNat, sget]

theorem sgetNat_tally_successful (t : Tally) :
    sgetNat (tallyStats t) "records_successful" = some t.records_successful := by
  simp [tallyStats, sgetNat, sget]

theorem sgetNat_tally_failed (t : Tally) :
    sgetNat (tallyStats t) "records_failed" = some t.records_failed := by
  simp [tallyStats, sgetNat, sget]

theorem sgetNat_tally_total_processed (t : Tally) :
    sgetNat (tallyStats t) "total_records_processed" = none := by
  simp [tallyStats, sgetNat, sget]

theorem sgetNat_tally_total_successful (t : Tally) :
    sgetNat (tallyStats t) "total_records_successful" = none := by
  simp [tallyStats, sgetNat, sget]

theorem sgetNat_tally_total_failed (t : Tally) :
    sgetNat (tallyStats t) "total_records_failed" = none := by
  simp [tallyStats, sgetNat, sget]

theorem sget_tally_errors (t : Tally) :
    sget (tallyStats t) "errors" = some (.strs t.errors) := by
  simp [tallyStats, sget]

/-! ## C2: missing or inactive mapping -/

/-- C2: when the mapping id resolves to nothing, or to a mapping whose
is_active flag is false, execute_sync raises before the SyncLog row is
built, so the sync-log store (and the mapping table) are returned
unchanged and the error distinguishes the two cases. -/
theorem execute_sync_missing_or_inactive (env : SyncEnv)
    (mappings : List FieldMapping) (logs : List SyncLog) (mid : Nat) :
    (mappings.find? (fun fm => fm.id = mid) = none →
      execute_sync env mappings logs mid =
        { result := .error (.not_found mid),
          sync_logs := logs, field_mappings := mappings })
    ∧ (∀ fm, mappings.find? (fun fm2 => fm2.id = mid) = some fm →
        fm.is_active = false →
        execute_sync env mappings logs mid =
          { result := .error (.inactive_mapping fm.name),
            sync_logs := logs, field_mappings := mappings }) := by
  constructor
  · intro hnone
    unfold execute_sync
    rw [hnone]
  · intro fm hfind hoff
    unfold execute_sync
    rw [hfind]
    simp [hoff]

/-- C2 witness: a store holding only the inactive mapping; looking up an
absent id raises not_found, looking up the inactive mapping raises
inactive_mapping, and in both cases the log store stays empty. -/
theorem execute_sync_missing_or_inactive_witness :
    execute_sync (envOk []) [fmOff] [] 99 =
      { result := .error (.not_found 99), sync_logs := [], field_mappings := [fmOff] }
    ∧ execute_sync (envOk []) [fmOff] [] 3 =
      { result := .error (.inactive_mapping "products-off"),
        sync_logs := [], field_mappings := [fmOff] } := by
  constructor
  · exact (execute_sync_missing_or_inactive (envOk []) [fmOff] [] 99).1 (by decide)
  · exact (execute_sync_missing_or_inactive (envOk []) [fmOff] [] 3).2 fmOff (by decide) (by decide)

/-! ## C1: connection/fetch failures do not seal the run as failed -/

theorem find_self (fm : FieldMapping) :
    [fm].find? (fun fm2 => fm2.id = fm.id) = some fm := by
  simp

/-- C1 counterexample: the sink (database) client cannot be constructed,
yet execute_sync seals the run with status "completed" and a null
error_message — the claim demands status "failed" with a non-null
error_message on this input. -/
theorem execute_sync_abort_counterexample :
    (execute_sync envDbFail [fmP] [] 1).result =
      .ok { field_mapping_id := 1, sync_direction := .from_platform,
            status := "completed", records_processed := 0,
            records_successful := 0, records_failed := 0,
            error_message := none,
            error_details := some ["Sync failed: db connection refused"],
            completed_at := some 100 }
    ∧ "completed" ≠ "failed" := by
  refine ⟨rfl, by decide⟩

/-- C1 amended: the direction helpers catch every exception themselves and
return it inside the stats, so a client-construction or batch-fetch
failure on a from_platform run is sealed status "completed" with
error_message null, the exception message recorded as the single
"Sync failed" string of error_details, zero counts, and last_sync updated
all the same; status "failed" is never produced on these aborts. -/
theorem execute_sync_abort_sealed_completed (env : SyncEnv)
    (fm : FieldMapping) (logs : List SyncLog) (e : String)
    (hact : fm.is_active = true) (hdir : fm.sync_direction = .from_platform)
    (habort : env.platform_client = .error e ∨
      (env.platform_client = .ok () ∧ env.db_client = .error e) ∨
      (env.platform_client = .ok () ∧ env.db_client = .ok () ∧
        env.platform_fetch fm.platform_resource = .error e)) :
    execute_sync env [fm] logs fm.id =
      { result := .ok
          { field_mapping_id := fm.id, sync_direction := fm.sync_direction,
            status := "completed", records_processed := 0,
            records_successful := 0, records_failed := 0,
            error_message := none,
            error_details := some ["Sync failed: " ++ e],
            completed_at := some env.now },
        sync_logs := logs ++
          [{ field_mapping_id := fm.id, sync_direction := fm.sync_direction,
             status := "completed", records_processed := 0,
             records_successful := 0, records_failed := 0,
             error_message := none,
             error_details := some ["Sync failed: " ++ e],
             completed_at := some env.now }],
        field_mappings := [{ fm with last_sync := some env.now }] } := by
  have habortstats : sync_from_platform_to_database env fm = abortOutput e := by
    rcases habort with h | ⟨h1, h2⟩ | ⟨h1, h2, h3⟩
    · simp [sync_from_platform_to_database, h]
    · simp [sync_from_platform_to_database, h1, h2]
    · simp [sync_from_platform_to_database, h1, h2, h3]
  unfold execute_sync
  rw [find_self fm]
  simp [hact, hdir, habortstats, abortOutput, tallyStats, sget, sgetNat]

/-- C1 witness: a failing fetch seals the run "completed", error_message
null, the fetch exception preserved in error_details. -/
theorem execute_sync_abort_sealed_completed_witness :
    execute_sync envFetchFail [fmP] [] 1 =
      { result := .ok
          { field_mapping_id := 1, sync_direction := .from_platform,
            status := "completed", records_processed := 0,
            records_successful := 0, records_failed := 0,
            error_message := none,
            error_details := some ["Sync failed: fetch timed out"],
            completed_at := some 100 },
        sync_logs :=
          [{ field_mapping_id := 1, sync_direction := .from_platform,
             status := "completed", records_processed := 0,
             records_successful := 0, records_failed := 0,
             error_message := none,
             error_details := some ["Sync failed: fetch timed out"],
             completed_at := some 100 }],
        field_mappings := [{ fmP with last_sync := some 100 }] } := by
  exact execute_sync_abort_sealed_completed envFetchFail fmP [] "fetch timed out"
    rfl rfl (Or.inr (Or.inr ⟨rfl, rfl, rfl⟩))

/-! ## C10: bidirectional runs drop per-record error details -/

theorem sget_bidirectional_errors (env : SyncEnv) (fm : FieldMapping) :
    sget (sync_bidirectional env fm) "errors" = none := by
  simp [sync_bidirectional, sget]

/-- C10: for every bidirectional run, the combined stats dict carries the
per-pass error lists only under the nested from_platform / from_database
keys and has no top-level "errors" key, so execute_sync — which reads only
that key — seals the run with error_details null even when per-record
failures were counted. -/
theorem execute_sync_bidirectional_no_error_details (env : SyncEnv)
    (fm : FieldMapping) (logs : List SyncLog)
    (hact : fm.is_active = true) (hdir : fm.sync_direction = .bidirectional) :
    ∀ log, (execute_sync env [fm] logs fm.id).result = .ok log →
      log.status = "completed" ∧ log.error_details = none := by
  intro log hlog
  unfold execute_sync at hlog
  rw [find_self fm] at hlog
  simp only [hact, hdir, sget_bidirectional_errors] at hlog
  rw [if_neg (by decide : ¬(true = false))] at hlog
  have h2 := Except.ok.inj hlog
  rw [← h2]
  exact ⟨rfl, rfl⟩

/-- C10 witness: a bidirectional run in which the platform→database pass
failed on its one record — records_failed is 1, yet error_details is
null. -/
theorem execute_sync_bidirectional_no_error_details_witness :
    (execute_sync envInsFail [fmB] [] 2).result = .ok
      { field_mapping_id := 2, sync_direction := .bidirectional,
        status := "completed", records_processed := 1,
        records_successful := 0, records_failed := 1,
        error_message := none, error_details := none,
        completed_at := some 100 }
    ∧ (SyncLog.status
        { field_mapping_id := 2, sync_direction := .bidirectional,
          status := "completed", records_processed := 1,
          records_successful := 0, records_failed := 1,
          error_message := none, error_details := none,
          completed_at := some 100 } = "completed"
      ∧ SyncLog.error_details
        { field_mapping_id := 2, sync_direction := .bidirectional,
          status := "completed", records_processed := 1,
          records_successful := 0, records_failed := 1,
          error_message := none, error_details := none,
          completed_at := some 100 } = none) := by
  refine ⟨rfl, ?_⟩
  exact execute_sync_bidirectional_no_error_details envInsFail fmB [] rfl rfl
    { field_mapping_id := 2, sync_direction := .bidirectional,
      status := "completed", records_processed := 1,
      records_successful := 0, records_failed := 1,
      error_message := none, error_details := none,
      completed_at := some 100 } rfl

/-! ## C4: per-record partial failure -/

/-- C4: in a from_platform run whose batch holds five records and whose
sink write fails exactly on the third, the failure is caught per record —
the loop continues — and the run is sealed completed with
records_processed 5, records_successful 4, records_failed 1, and exactly
the one "Failed to sync record" string in error_details. -/
theorem execute_sync_partial_failure (env : SyncEnv) (fm : FieldMapping)
    (logs : List SyncLog) (r1 r2 r3 r4 r5 : Rec) (m : String)
    (hact : fm.is_active = true) (hdir : fm.sync_direction = .from_platform)
    (hpc : env.platform_client = .ok ()) (hdbc : env.db_client = .ok ())
    (hfetch : env.platform_fetch fm.platform_resource =
      .ok [r1, r2, r3, r4, r5])
    (h1 : env.insert_data fm.db_table
      (transform_data r1 fm.platform_fields fm.transformation_rules) = .ok ())
    (h2 : env.insert_data fm.db_table
      (transform_data r2 fm.platform_fields fm.transformation_rules) = .ok ())
    (h3 : env.insert_data fm.db_table
      (transform_data r3 fm.platform_fields fm.transformation_rules) =
        .error m)
    (h4 : env.insert_data fm.db_table
      (transform_data r4 fm.platform_fields fm.transformation_rules) = .ok ())
    (h5 : env.insert_data fm.db_table
      (transform_data r5 fm.platform_fields fm.transformation_rules) = .ok ()) :
    (execute_sync env [fm] logs fm.id).result = .ok
      { field_mapping_id := fm.id, sync_direction := fm.sync_direction,
        status := "completed", records_processed := 5,
        records_successful := 4, records_failed := 1,
        error_message := none,
        error_details := some ["Failed to sync record: " ++ m],
        completed_at := some env.now } := by
  have hrun : sync_from_platform_to_database env fm =
      { stats := tallyStats
          { records_processed := 5, records_successful := 4,
            records_failed := 1,
            errors := ["Failed to sync record: " ++ m] },
        db_client_closed := true, platform_client_closed := false } := by
    unfold sync_from_platform_to_database
    rw [hpc, hdbc, hfetch]
    simp [platformRecordStep, h1, h2, h3, h4, h5]
  unfold execute_sync
  rw [find_self fm]
  simp [hact, hdir, hrun, tallyStats, sget, sgetNat]

/-- C4 witness: the concrete five-record batch whose third transformed
record is refused by the sink. -/
theorem execute_sync_partial_failure_witness :
    (execute_sync envFive [fmP] [] 1).result = .ok
      { field_mapping_id := 1, sync_direction := .from_platform,
        status := "completed", records_processed := 5,
        records_successful := 4, records_failed := 1,
        error_message := none,
        error_details := some ["Failed to sync record: write refused"],
        completed_at := some 100 } := by
  exact execute_sync_partial_failure envFive fmP []
    (recT "t1") (recT "t2") (recT "t3") (recT "t4") (recT "t5")
    "write refused" rfl rfl rfl rfl rfl rfl rfl rfl rfl rfl

/-! ## C5: the engine fetches a single page, it does not page to exhaustion -/

theorem foldl_platformRecordStep_processed (env : SyncEnv) (fm : FieldMapping)
    (l : List Rec) (t : Tally) :
    (l.foldl (platformRecordStep env fm) t).records_processed =
      t.records_processed + l.length := by
  induction l generalizing t with
  | nil => simp
  | cons hd tl ih =>
    rw [List.foldl_cons, ih]
    cases h : env.insert_data fm.db_table
        (transform_data hd fm.platform_fields fm.transformation_rules) with
    | ok u =>
      simp only [platformRecordStep, h, List.length_cons]
      omega
    | error e =>
      simp only [platformRecordStep, h, List.length_cons]
      omega

/-- C5 counterexample: a shop holding 300 products — more than one page —
under an all-success run: the engine processes only the 250 records of the
single get_data call, not the 300 available, so it does not page until the
resource is exhausted. -/
theorem sync_single_page_counterexample :
    sgetNat (sync_from_platform_to_database (envShop shopBig) fmP).stats
      "records_processed" = some 250
    ∧ shopBig.products.length = 300
    ∧ (250 ≠ 300) := by
  refine ⟨?_,
    by rw [show shopBig.products = List.replicate 300 (recT "p") from rfl,
      List.length_replicate], by decide⟩
  unfold sync_from_platform_to_database
  have hgd : (envShop shopBig).platform_fetch fmP.platform_resource =
      .ok (shopify_page shopBig.products 250) := by
    simp [envShop, fmP, get_data, get_products]
  rw [show (envShop shopBig).platform_client = .ok () from rfl,
    show (envShop shopBig).db_client = .ok () from rfl, hgd]
  rw [sgetNat_tally_processed, foldl_platformRecordStep_processed]
  rw [show shopify_page shopBig.products 250 =
      List.take 250 (List.replicate 300 (recT "p")) from rfl]
  rw [List.length_take, List.length_replicate]
  show some (0 + min 250 300) = some 250
  decide

/-- C5 amended: sync_from_platform_to_database issues exactly one
get_data call with the client's default page limit of 250 and no paging
loop, so a run processes min(250, available) records of the resource. -/
theorem sync_fetches_single_page (shop : ShopifyShop) (env : SyncEnv)
    (fm : FieldMapping)
    (hpc : env.platform_client = .ok ()) (hdbc : env.db_client = .ok ())
    (hres : fm.platform_resource = "products")
    (hfetch : env.platform_fetch fm.platform_resource =
      get_data shop fm.platform_resource 250) :
    sgetNat (sync_from_platform_to_database env fm).stats
      "records_processed" = some (min 250 shop.products.length) := by
  have hgd : get_data shop "products" 250 =
      .ok (shopify_page shop.products 250) := by
    simp [get_data, get_products]
  unfold sync_from_platform_to_database
  rw [hpc, hdbc, hfetch, hres, hgd]
  rw [sgetNat_tally_processed, foldl_platformRecordStep_processed]
  unfold shopify_page
  rw [List.length_take]
  congr 1
  show 0 + min (min 250 250) shop.products.length = min 250 shop.products.length
  omega

/-- C5 witness: a three-product shop yields a run processing all three
(min 250 3). -/
theorem sync_fetches_single_page_witness :
    sgetNat (sync_from_platform_to_database (envShop shopSmall) fmP).stats
      "records_processed" = some 3 := by
  exact sync_fetches_single_page shopSmall (envShop shopSmall) fmP
    rfl rfl rfl rfl

/-! ## C6: the retry decorator retries every exception -/

/-- C6 counterexample: a 404 — an unambiguous non-429 client error — is
retried to the three-attempt bound instead of failing after one attempt,
and a negative test_connection probe is likewise retried three times. -/
theorem retry_counterexample :
    (retry_stop3 (fun _ => (.error (.status 404) : Except HttpFailure Unit))).1 = 3
    ∧ (test_connection (fun _ => .error (.status 404))).1 = 3
    ∧ (3 ≠ 1) := by
  decide

/-- C6 amended: the tenacity decorator retries on EVERY exception — 5xx,
timeouts and connection resets, but equally any 4xx and a raising
test_connection probe — up to stop_after_attempt(3), with the
wait_exponential waits doubling inside the [2, 10] clamp; a first-attempt
success makes exactly one attempt and a second-attempt success two. -/
theorem retry_behaviour {α : Type} (f : Nat → Except HttpFailure α) :
    ((∀ a : α, f 0 ≠ .ok a) → (∀ a : α, f 1 ≠ .ok a) →
      (retry_stop3 f).1 = 3 ∧ (retry_stop3 f).2 = f 2)
    ∧ (∀ a, f 0 = .ok a → retry_stop3 f = (1, .ok a))
    ∧ (∀ e a, f 0 = .error e → f 1 = .ok a → retry_stop3 f = (2, .ok a))
    ∧ (wait_exponential 1 2 10 1 = 2 ∧ wait_exponential 1 2 10 2 = 4 ∧
       wait_exponential 1 2 10 2 = 2 * wait_exponential 1 2 10 1) := by
  refine ⟨?_, ?_, ?_, by decide, by decide, by decide⟩
  · intro h0 h1
    unfold retry_stop3
    cases hf0 : f 0 with
    | ok a => exact absurd hf0 (h0 a)
    | error e0 =>
      cases hf1 : f 1 with
      | ok a => exact absurd hf1 (h1 a)
      | error e1 => exact ⟨rfl, rfl⟩
  · intro a h
    unfold retry_stop3
    rw [h]
  · intro e a h0 h1
    unfold retry_stop3
    rw [h0, h1]

/-- C6 witness: a permanently timing-out operation is attempted three
times and surfaces the last failure. -/
theorem retry_behaviour_witness :
    (retry_stop3 (fun _ => (.error .timeout : Except HttpFailure Unit))).1 = 3
    ∧ (retry_stop3 (fun _ => (.error .timeout : Except HttpFailure Unit))).2 =
        .error .timeout := by
  have h := (retry_behaviour (fun _ => (.error .timeout : Except HttpFailure Unit))).1
    (fun a hc => Except.noConfusion hc) (fun a hc => Except.noConfusion hc)
  exact ⟨h.1, h.2⟩

/-! ## C7: clients are not closed on every exit path -/

/-- C7 counterexample: on the fetch-abort path the engine closes neither
client before execute_sync returns — db_client.close() sits inside the
try block after the loop (no finally), and the engine has no platform
close call at all. -/
theorem close_on_abort_counterexample :
    (sync_from_platform_to_database envFetchFail fmP).db_client_closed = false
    ∧ (sync_from_platform_to_database envFetchFail fmP).platform_client_closed
        = false := by
  exact ⟨rfl, rfl⟩

/-- C7 amended: the engine closes the database client exactly on runs
whose client construction and fetch succeeded (per-record write failures
are caught, so the loop completes and close is reached), closes it on no
abort path, and itself never closes the platform client on any path (only
the client's finalizer does, at garbage collection); the mapping's
last_sync is set to the sealing instant on every sealed run — normal
completions and swallowed aborts alike. -/
theorem close_discipline (env : SyncEnv) (fm : FieldMapping)
    (logs : List SyncLog) :
    (sync_from_platform_to_database env fm).platform_client_closed = false
    ∧ (∀ l, env.platform_client = .ok () → env.db_client = .ok () →
        env.platform_fetch fm.platform_resource = .ok l →
        (sync_from_platform_to_database env fm).db_client_closed = true)
    ∧ (∀ e, (env.platform_client = .error e ∨
        (env.platform_client = .ok () ∧ env.db_client = .error e) ∨
        (env.platform_client = .ok () ∧ env.db_client = .ok () ∧
          env.platform_fetch fm.platform_resource = .error e)) →
        (sync_from_platform_to_database env fm).db_client_closed = false)
    ∧ (fm.is_active = true →
        (execute_sync env [fm] logs fm.id).field_mappings =
          [{ fm with last_sync := some env.now }]) := by
  refine ⟨?_, ?_, ?_, ?_⟩
  · unfold sync_from_platform_to_database
    cases env.platform_client with
    | error e => rfl
    | ok u =>
      cases env.db_client with
      | error e => rfl
      | ok u2 =>
        cases env.platform_fetch fm.platform_resource with
        | error e => rfl
        | ok l => rfl
  · intro l hpc hdbc hfetch
    unfold sync_from_platform_to_database
    rw [hpc, hdbc, hfetch]
  · intro e habort
    unfold sync_from_platform_to_database
    rcases habort with h | ⟨h1, h2⟩ | ⟨h1, h2, h3⟩
    · rw [h]; rfl
    · rw [h1, h2]; rfl
    · rw [h1, h2, h3]; rfl
  · intro hact
    unfold execute_sync
    rw [find_self fm]
    simp [hact]

/-- C7 witness: a successful one-record run reaches the database close and
updates last_sync, an aborted run does not close, and no run closes the
platform client. -/
theorem close_discipline_witness :
    (sync_from_platform_to_database (envOk [recT "t1"]) fmP).platform_client_closed
        = false
    ∧ (sync_from_platform_to_database (envOk [recT "t1"]) fmP).db_client_closed
        = true
    ∧ (sync_from_platform_to_database envDbFail fmP).db_client_closed = false
    ∧ (execute_sync (envOk [recT "t1"]) [fmP] [] 1).field_mappings =
        [{ fmP with last_sync := some 100 }] := by
  refine ⟨(close_discipline (envOk [recT "t1"]) fmP []).1, ?_, ?_, ?_⟩
  · exact (close_discipline (envOk [recT "t1"]) fmP []).2.1 [recT "t1"]
      rfl rfl rfl
  · exact (close_discipline envDbFail fmP []).2.2.1 "db connection refused"
      (Or.inr (Or.inl ⟨rfl, rfl⟩))
  · exact (close_discipline (envOk [recT "t1"]) fmP []).2.2.2 rfl

/-! ## C8: credential resolver round-trip -/

/-- C8: under the round-trip contracts of the Fernet cipher and the base64
codec (with ciphertexts of nonempty plaintexts nonempty, as real Fernet
output is), decrypt ∘ encrypt is the identity on nonempty strings; the
empty string maps to the empty string on both sides for EVERY cipher and
codec — the guard returns before either is invoked — and decrypt raises
on undecryptable nonempty input, whether the base64 or the Fernet stage
rejects it. -/
theorem encryption_roundtrip (c : FernetCipher) (b : Base64Codec)
    (hfer : ∀ s, c.fdecrypt (c.fencrypt s) = some s)
    (hb64 : ∀ s, b.b64decode (b.b64encode s) = some s)
    (hne : ∀ s, s ≠ "" → b.b64encode (c.fencrypt s) ≠ "") :
    (∀ s, s ≠ "" →
      EncryptionManager.decrypt c b (EncryptionManager.encrypt c b s) = .ok s)
    ∧ EncryptionManager.encrypt c b "" = ""
    ∧ EncryptionManager.decrypt c b "" = .ok ""
    ∧ (∀ ed, ed ≠ "" → b.b64decode ed = none →
        EncryptionManager.decrypt c b ed = .error "Decryption failed")
    ∧ (∀ ed d, ed ≠ "" → b.b64decode ed = some d → c.fdecrypt d = none →
        EncryptionManager.decrypt c b ed = .error "Decryption failed") := by
  refine ⟨?_, rfl, rfl, ?_, ?_⟩
  · intro s hs
    unfold EncryptionManager.encrypt EncryptionManager.decrypt
    rw [if_neg hs, if_neg (hne s hs)]
    simp only [hb64, hfer]
  · intro ed hed hdec
    unfold EncryptionManager.decrypt
    rw [if_neg hed, hdec]
  · intro ed d hed hdec hfd
    unfold EncryptionManager.decrypt
    rw [if_neg hed]
    simp only [hdec, hfd]

/-- C8 witness: an identity cipher and codec satisfying the contracts
round-trip a concrete secret and short-circuit the empty string. -/
theorem encryption_roundtrip_witness :
    EncryptionManager.decrypt idCipher idCodec
      (EncryptionManager.encrypt idCipher idCodec "s3cr3t") = .ok "s3cr3t"
    ∧ EncryptionManager.encrypt idCipher idCodec "" = ""
    ∧ EncryptionManager.decrypt idCipher idCodec "" = .ok "" := by
  have h := encryption_roundtrip idCipher idCodec (fun s => rfl) (fun s => rfl)
    (fun s hs => hs)
  exact ⟨h.1 "s3cr3t" (by decide), h.2.1, h.2.2.1⟩

/-! ## C9: scheduler add_sync_job idempotence -/

theorem filter_remove_sync_job (l : List Job) (jid : String) :
    (remove_sync_job l jid).filter (fun j => j.id = jid) = [] := by
  simp [remove_sync_job]

/-- C9: add_sync_job on an inactive mapping is a no-op returning no job
handle; on an active mapping two consecutive calls leave exactly one
scheduled job carrying the mapping's identity, the second call having
removed the pre-existing one before registering anew. -/
theorem add_sync_job_spec (jobs : List Job) (fm : FieldMapping) :
    (fm.is_active = false → add_sync_job jobs fm = (none, jobs))
    ∧ (fm.is_active = true →
        (add_sync_job (add_sync_job jobs fm).2 fm).1 =
          some ("sync_mapping_" ++ toString fm.id)
        ∧ ((add_sync_job (add_sync_job jobs fm).2 fm).2.filter
            (fun j => j.id = "sync_mapping_" ++ toString fm.id)).length = 1) := by
  constructor
  · intro hoff
    unfold add_sync_job
    rw [if_pos hoff]
  · intro hon
    have hcond : ¬(fm.is_active = false) := by
      rw [hon]; exact fun hc => Bool.noConfusion hc
    unfold add_sync_job
    rw [if_neg hcond, if_neg hcond]
    refine ⟨rfl, ?_⟩
    simp [List.filter_append, filter_remove_sync_job, List.filter_cons]

/-- C9 witness: on the empty job store, the inactive mapping registers
nothing and the active mapping registered twice holds exactly one job. -/
theorem add_sync_job_spec_witness :
    add_sync_job [] fmOff = (none, [])
    ∧ (add_sync_job (add_sync_job [] fmP).2 fmP).1 =
        some ("sync_mapping_" ++ toString (1 : Nat))
    ∧ ((add_sync_job (add_sync_job [] fmP).2 fmP).2.filter
        (fun j => j.id = "sync_mapping_" ++ toString (1 : Nat))).length = 1 := by
  refine ⟨(add_sync_job_spec [] fmOff).1 rfl, ?_, ?_⟩
  · exact ((add_sync_job_spec [] fmP).2 rfl).1
  · exact ((add_sync_job_spec [] fmP).2 rfl).2

end ShopSync
